import Mathlib

/-!
Verification of the geodetic tile-compositing and coordinate-projection engine
of the Aeronir repository (`src/server.js`, duplicated in the authenticated
variant of the server).  The JavaScript functions `latLngToTile`,
`latLngToGlobalPixel`, `getTilesForBounds`, `downloadTile`,
`createCompositeImage`, `calculateYoloForComposite` and the `POST /api/boxes`
handler are embedded shallowly: numbers become real numbers, the asynchronous
tile fetch becomes an explicit `Except`-valued outcome parameter, and raster
buffers become abstract pixel functions.
-/

/-- Geographic bounding box `{south, west, north, east}` in degrees (WGS84),
as carried by the request body. -/
structure GeoBounds where
  south : ℝ
  west : ℝ
  north : ℝ
  east : ℝ

/-- A slippy-map tile coordinate `{x, y, z}` in the XYZ scheme. -/
structure TileCoord where
  x : ℤ
  y : ℤ
  z : ℤ
  deriving DecidableEq, Repr

/-- Continuous global pixel position returned by `latLngToGlobalPixel`. -/
structure GlobalPixel where
  globalX : ℝ
  globalY : ℝ

/-- Embedding of `latLngToTile(lat, lng, zoom)` (server.js lines 40-46):
`n = 2^zoom`, `x = floor((lng+180)/360*n)`,
`y = floor((1 - asinh(tan(lat*pi/180))/pi)/2*n)`. -/
noncomputable def latLngToTile (lat lng : ℝ) (zoom : ℤ) : TileCoord :=
  let n : ℝ := 2 ^ zoom
  let x : ℤ := ⌊(lng + 180) / 360 * n⌋
  let latRad : ℝ := lat * Real.pi / 180
  let y : ℤ := ⌊(1 - Real.arsinh (Real.tan latRad) / Real.pi) / 2 * n⌋
  ⟨x, y, zoom⟩

/-- Embedding of `latLngToGlobalPixel(lat, lng, zoom, tileSize)` (server.js
lines 51-57): the same formulas scaled by `tileSize` instead of floored. -/
noncomputable def latLngToGlobalPixel (lat lng : ℝ) (zoom : ℤ) (tileSize : ℝ) :
    GlobalPixel :=
  let n : ℝ := 2 ^ zoom
  let globalX : ℝ := (lng + 180) / 360 * n * tileSize
  let latRad : ℝ := lat * Real.pi / 180
  let globalY : ℝ := (1 - Real.arsinh (Real.tan latRad) / Real.pi) / 2 * n * tileSize
  ⟨globalX, globalY⟩

/-- The tile grid returned by `getTilesForBounds` (server.js lines 62-90). -/
structure TileGrid where
  tiles : List TileCoord
  gridWidth : ℤ
  gridHeight : ℤ
  minX : ℤ
  minY : ℤ
  maxX : ℤ
  maxY : ℤ
  deriving DecidableEq

/-- The integer range `[a, a+1, ..., b]`, i.e. the values taken by the loop
variable of a JavaScript `for (let v = a; v <= b; v++)` loop. -/
def intRange (a b : ℤ) : List ℤ :=
  (List.range (b + 1 - a).toNat).map fun (i : ℕ) => a + (i : ℤ)

/-- Embedding of `getTilesForBounds(bounds, zoom)` (server.js lines 62-90):
tile indices of the SW and NE corners, element-wise min/max, and the
row-by-row enumeration of the rectangle (outer loop over `x`, inner over
`y`). -/
noncomputable def getTilesForBounds (bounds : GeoBounds) (zoom : ℤ) : TileGrid :=
  let swTile := latLngToTile bounds.south bounds.west zoom
  let neTile := latLngToTile bounds.north bounds.east zoom
  let minX := min swTile.x neTile.x
  let maxX := max swTile.x neTile.x
  let minY := min swTile.y neTile.y
  let maxY := max swTile.y neTile.y
  let tiles := (intRange minX maxX).flatMap fun x =>
    (intRange minY maxY).map fun y => (⟨x, y, zoom⟩ : TileCoord)
  ⟨tiles, maxX - minX + 1, maxY - minY + 1, minX, minY, maxX, maxY⟩
/-- The `TileGrid` literal built by `getTilesForBounds` from the four corner
tile indices; proof-side abbreviation, definitionally equal to the body of
`getTilesForBounds`. -/
def mkTileGrid (mX MX mY MY z : ℤ) : TileGrid :=
  ⟨(intRange mX MX).flatMap fun x =>
      (intRange mY MY).map fun y => (⟨x, y, z⟩ : TileCoord),
   MX - mX + 1, MY - mY + 1, mX, mY, MX, MY⟩

/-- RGB color of a raster pixel. -/
structure Color where
  r : ℕ
  g : ℕ
  b : ℕ
  deriving DecidableEq, Repr

/-- Abstract raster image: dimensions in pixels plus pixel contents.  Stands
for the JPEG byte buffers moved around by the server. -/
structure Raster where
  width : ℤ
  height : ℤ
  pixelAt : ℤ → ℤ → Color

/-- The solid grey 256x256 placeholder raster produced by the catch-branch of
`downloadTile` (server.js lines 112-119): `sharp` creates a 256x256 canvas
with background `{r:50, g:50, b:60}` and encodes it. -/
def placeholderTile : Raster :=
  { width := 256, height := 256, pixelAt := fun _ _ => ⟨50, 50, 60⟩ }

/-- Embedding of `downloadTile(z, x, y, tileUrlTemplate)` (server.js lines
95-121).  The network fetch is abstracted into its outcome: `Except.ok` is a
successful HTTP response with the downloaded raster, `Except.error` is any
network error or non-success status (the code turns a non-ok status into a
thrown error, so both land in the same catch-branch).  URL templating only
chooses where to fetch from and is absorbed into the outcome parameter. -/
def downloadTile (fetchResult : Except String Raster) : Raster :=
  match fetchResult with
  | Except.ok buffer => buffer
  | Except.error _ => placeholderTile

/-- One `sharp` composite instruction: a raster pasted at `(left, top)`. -/
structure CompositeInput where
  input : Raster
  left : ℤ
  top : ℤ

/-- The composite image assembled by `createCompositeImage`: canvas
dimensions plus the placement instructions handed to `sharp.composite`. -/
structure CompositeImage where
  width : ℤ
  height : ℤ
  inputs : List CompositeInput

/-- Embedding of `createCompositeImage(tileGrid, tileSize, tileUrl)`
(server.js lines 126-168): canvas of `gridWidth*tileSize` by
`gridHeight*tileSize`, every tile downloaded (each fetch outcome supplied by
`fetchResult`) and placed at `((x-minX)*tileSize, (y-minY)*tileSize)`. -/
def createCompositeImage (tileGrid : TileGrid) (tileSize : ℤ)
    (fetchResult : TileCoord → Except String Raster) : CompositeImage :=
  let compositeWidth := tileGrid.gridWidth * tileSize
  let compositeHeight := tileGrid.gridHeight * tileSize
  let tileBuffers := tileGrid.tiles.map fun tile =>
    (tile, downloadTile (fetchResult tile))
  let compositeInputs := tileBuffers.map fun tb =>
    ({ input := tb.2,
       left := (tb.1.x - tileGrid.minX) * tileSize,
       top := (tb.1.y - tileGrid.minY) * tileSize } : CompositeInput)
  { width := compositeWidth, height := compositeHeight, inputs := compositeInputs }

/-- The rounded pixel rectangle reported in the `pixel` field of the YOLO
coordinates. -/
structure PixelRect where
  x1 : ℤ
  y1 : ℤ
  x2 : ℤ
  y2 : ℤ
  deriving DecidableEq, Repr

/-- The value returned by `calculateYoloForComposite`. -/
structure YoloResult where
  x_center : ℝ
  y_center : ℝ
  width : ℝ
  height : ℝ
  pixel : PixelRect

/-- Clamping to `[0,1]`, as the spec phrases the projector's
`Math.max(0, Math.min(1, v))`. -/
def clamp01 (v : ℝ) : ℝ := max 0 (min 1 v)

/-- Embedding of `calculateYoloForComposite(bounds, tileGrid, zoom, tileSize)`
(server.js lines 173-212).  `Math.abs` is `|.|`, `Math.round` is Mathlib's
`round` (both are floor of the value plus one half), and the JS clamp
`Math.max(0, Math.min(1, v))` is `max 0 (min 1 v)`. -/
noncomputable def calculateYoloForComposite (bounds : GeoBounds)
    (tileGrid : TileGrid) (zoom : ℤ) (tileSize : ℝ) : YoloResult :=
  let compositeWidth : ℝ := tileGrid.gridWidth * tileSize
  let compositeHeight : ℝ := tileGrid.gridHeight * tileSize
  let swPixel := latLngToGlobalPixel bounds.south bounds.west zoom tileSize
  let nePixel := latLngToGlobalPixel bounds.north bounds.east zoom tileSize
  let offsetX : ℝ := tileGrid.minX * tileSize
  let offsetY : ℝ := tileGrid.minY * tileSize
  let x1 := swPixel.globalX - offsetX
  let x2 := nePixel.globalX - offsetX
  let y1 := nePixel.globalY - offsetY
  let y2 := swPixel.globalY - offsetY
  let boxWidth := |x2 - x1|
  let boxHeight := |y2 - y1|
  let xCenter := (x1 + x2) / 2 / compositeWidth
  let yCenter := (y1 + y2) / 2 / compositeHeight
  { x_center := max 0 (min 1 xCenter)
    y_center := max 0 (min 1 yCenter)
    width := max 0 (min 1 (boxWidth / compositeWidth))
    height := max 0 (min 1 (boxHeight / compositeHeight))
    pixel := ⟨round x1, round y1, round x2, round y2⟩ }

/-- The `imageInfo` record built on the success path of the box handler. -/
structure ImageInfo where
  path : String
  width : ℤ
  height : ℤ

/-- The box record appended to the database by `POST /api/boxes` (server.js
lines 323-341); persistence-only fields such as `createdAt` and the tile URL
are outside the embedded core. -/
structure BoxRecord where
  id : ℤ
  labelId : ℤ
  labelName : String
  bounds : GeoBounds
  zoom : ℤ
  tiles : List TileCoord
  tileGridWidth : ℤ
  tileGridHeight : ℤ
  tileGridMinX : ℤ
  tileGridMinY : ℤ
  image : Option String
  imageSize : Option (ℤ × ℤ)
  yolo : YoloResult

/-- The JS default `const zoomLevel = zoom || 14` (server.js line 286): an
absent or `null` zoom is `none`, and a zoom of `0` is falsy, so both fall
back to `14`. -/
def resolveZoom (zoom : Option ℤ) : ℤ :=
  match zoom with
  | none => 14
  | some z => if z = 0 then 14 else z

/-- Embedding of the core of the `POST /api/boxes` handler (server.js lines
277-346) after request validation: resolve the zoom default, resolve the tile
grid, try to build and persist the composite (`encodeOutcome` is the outcome
of the `try` block around `createCompositeImage`/`sharp`/`writeFile`; on
error `imageInfo` becomes `null`), then compute the YOLO coordinates and
answer `201` with the new box record. -/
noncomputable def handleCreateBox (labelId : ℤ) (labelName : String)
    (bounds : GeoBounds) (zoom : Option ℤ) (boxId : ℤ) (imageName : String)
    (fetchResult : TileCoord → Except String Raster)
    (encodeOutcome : Except String Unit) : ℕ × BoxRecord :=
  let zoomLevel := resolveZoom zoom
  let tileSize : ℤ := 256
  let tileGrid := getTilesForBounds bounds zoomLevel
  let imageInfo : Option ImageInfo :=
    match encodeOutcome with
    | Except.ok _ =>
        let composite := createCompositeImage tileGrid tileSize fetchResult
        some { path := "/saved_tiles/" ++ imageName,
               width := composite.width, height := composite.height }
    | Except.error _ => none
  let yoloCoords := calculateYoloForComposite bounds tileGrid zoomLevel 256
  (201,
   { id := boxId
     labelId := labelId
     labelName := labelName
     bounds := bounds
     zoom := zoomLevel
     tiles := tileGrid.tiles
     tileGridWidth := tileGrid.gridWidth
     tileGridHeight := tileGrid.gridHeight
     tileGridMinX := tileGrid.minX
     tileGridMinY := tileGrid.minY
     image := Option.map ImageInfo.path imageInfo
     imageSize := Option.map (fun i => (i.width, i.height)) imageInfo
     yolo := yoloCoords })
lemma latLngToTile_x (lat lng : ℝ) (zoom : ℤ) :
    (latLngToTile lat lng zoom).x = ⌊(lng + 180) / 360 * (2 ^ zoom : ℝ)⌋ := rfl

lemma latLngToTile_y (lat lng : ℝ) (zoom : ℤ) :
    (latLngToTile lat lng zoom).y
      = ⌊(1 - Real.arsinh (Real.tan (lat * Real.pi / 180)) / Real.pi) / 2
          * (2 ^ zoom : ℝ)⌋ := rfl

lemma getTilesForBounds_mk (b : GeoBounds) (zoom : ℤ) :
    getTilesForBounds b zoom =
      mkTileGrid
        (min (latLngToTile b.south b.west zoom).x (latLngToTile b.north b.east zoom).x)
        (max (latLngToTile b.south b.west zoom).x (latLngToTile b.north b.east zoom).x)
        (min (latLngToTile b.south b.west zoom).y (latLngToTile b.north b.east zoom).y)
        (max (latLngToTile b.south b.west zoom).y (latLngToTile b.north b.east zoom).y)
        zoom := rfl

lemma intRange_length (a b : ℤ) : (intRange a b).length = (b + 1 - a).toNat := by
  unfold intRange
  rw [List.length_map, List.length_range]

lemma mem_intRange {a b v : ℤ} : v ∈ intRange a b ↔ a ≤ v ∧ v ≤ b := by
  simp only [intRange, List.mem_map, List.mem_range]
  constructor
  · rintro ⟨i, hi, rfl⟩
    omega
  · intro h
    exact ⟨(v - a).toNat, by omega, by omega⟩

lemma flatMap_const_length {α β : Type} (l : List α) (f : α → List β) (k : ℕ)
    (h : ∀ x, (f x).length = k) : (l.flatMap f).length = l.length * k := by
  induction l with
  | nil => simp
  | cons a t ih => simp [ih, h a, Nat.succ_mul, Nat.add_comm]

lemma getTilesForBounds_shape (b : GeoBounds) (zoom : ℤ) :
    ∃ mX MX mY MY : ℤ, mX ≤ MX ∧ mY ≤ MY ∧
      getTilesForBounds b zoom =
        ⟨(intRange mX MX).flatMap fun x =>
            (intRange mY MY).map fun y => (⟨x, y, zoom⟩ : TileCoord),
         MX - mX + 1, MY - mY + 1, mX, mY, MX, MY⟩ :=
  ⟨_, _, _, _, min_le_max, min_le_max, rfl⟩

/-- Claim C2: swapping south/north, west/east, or both in the bounds passed to
the tile grid resolver yields an identical `TileGrid`, tile sequence included. -/
theorem tileGridResolver_order_independent (b : GeoBounds) (zoom : ℤ) :
    getTilesForBounds ⟨b.north, b.west, b.south, b.east⟩ zoom = getTilesForBounds b zoom ∧
    getTilesForBounds ⟨b.south, b.east, b.north, b.west⟩ zoom = getTilesForBounds b zoom ∧
    getTilesForBounds ⟨b.north, b.east, b.south, b.west⟩ zoom = getTilesForBounds b zoom := by
  have keyX : ∀ u v mY MY z : ℤ,
      mkTileGrid (min u v) (max u v) mY MY z = mkTileGrid (min v u) (max v u) mY MY z := by
    intro u v mY MY z
    rw [min_comm u v, max_comm u v]
  have keyY : ∀ mX MX u v z : ℤ,
      mkTileGrid mX MX (min u v) (max u v) z = mkTileGrid mX MX (min v u) (max v u) z := by
    intro mX MX u v z
    rw [min_comm u v, max_comm u v]
  have keyXY : ∀ u v p q z : ℤ,
      mkTileGrid (min u v) (max u v) (min p q) (max p q) z
        = mkTileGrid (min v u) (max v u) (min q p) (max q p) z := by
    intro u v p q z
    rw [min_comm u v, max_comm u v, min_comm p q, max_comm p q]
  refine ⟨?_, ?_, ?_⟩
  · rw [getTilesForBounds_mk, getTilesForBounds_mk]
    dsimp only
    simp only [latLngToTile_x, latLngToTile_y]
    exact keyY _ _ _ _ _
  · rw [getTilesForBounds_mk, getTilesForBounds_mk]
    dsimp only
    simp only [latLngToTile_x, latLngToTile_y]
    exact keyX _ _ _ _ _
  · rw [getTilesForBounds_mk, getTilesForBounds_mk]
    dsimp only
    simp only [latLngToTile_x, latLngToTile_y]
    exact keyXY _ _ _ _ _

/-- Claim C3: the resolved grid has `gridWidth ≥ 1`, `gridHeight ≥ 1`,
`gridWidth = maxX-minX+1`, `gridHeight = maxY-minY+1`, and its tile list has
exactly `gridWidth*gridHeight` entries enumerating the whole rectangle
`[minX,maxX] × [minY,maxY]` at the requested zoom. -/
theorem tileGrid_covers_rectangle (b : GeoBounds) (zoom : ℤ) :
    1 ≤ (getTilesForBounds b zoom).gridWidth ∧
    1 ≤ (getTilesForBounds b zoom).gridHeight ∧
    (getTilesForBounds b zoom).gridWidth
        = (getTilesForBounds b zoom).maxX - (getTilesForBounds b zoom).minX + 1 ∧
    (getTilesForBounds b zoom).gridHeight
        = (getTilesForBounds b zoom).maxY - (getTilesForBounds b zoom).minY + 1 ∧
    ((getTilesForBounds b zoom).tiles.length : ℤ)
        = (getTilesForBounds b zoom).gridWidth * (getTilesForBounds b zoom).gridHeight ∧
    ∀ t : TileCoord, t ∈ (getTilesForBounds b zoom).tiles ↔
      (getTilesForBounds b zoom).minX ≤ t.x ∧ t.x ≤ (getTilesForBounds b zoom).maxX ∧
      (getTilesForBounds b zoom).minY ≤ t.y ∧ t.y ≤ (getTilesForBounds b zoom).maxY ∧
      t.z = zoom := by
  obtain ⟨mX, MX, mY, MY, hx, hy, hg⟩ := getTilesForBounds_shape b zoom
  rw [hg]
  dsimp only
  refine ⟨by omega, by omega, rfl, rfl, ?_, ?_⟩
  · rw [flatMap_const_length _ _ ((MY + 1 - mY).toNat)
      (fun x => by rw [List.length_map, intRange_length]), intRange_length]
    push_cast [Int.toNat_of_nonneg (by omega : (0:ℤ) ≤ MX + 1 - mX),
      Int.toNat_of_nonneg (by omega : (0:ℤ) ≤ MY + 1 - mY)]
    ring
  · intro t
    simp only [List.mem_flatMap, List.mem_map, mem_intRange]
    constructor
    · rintro ⟨x, hxm, y, hym, rfl⟩
      exact ⟨hxm.1, hxm.2, hym.1, hym.2, rfl⟩
    · rintro ⟨h1, h2, h3, h4, h5⟩
      exact ⟨t.x, ⟨h1, h2⟩, t.y, ⟨h3, h4⟩, by cases t; simp_all⟩

/-- Claim C10: for positive `tileSize`, the discrete tile index is the
componentwise floor of the continuous global pixel coordinate divided by
`tileSize`. -/
theorem tile_floor_of_globalPixel (lat lng : ℝ) (zoom : ℤ) (tileSize : ℝ)
    (h : 0 < tileSize) :
    (latLngToTile lat lng zoom).x
        = ⌊(latLngToGlobalPixel lat lng zoom tileSize).globalX / tileSize⌋ ∧
    (latLngToTile lat lng zoom).y
        = ⌊(latLngToGlobalPixel lat lng zoom tileSize).globalY / tileSize⌋ := by
  constructor <;>
    · simp only [latLngToTile, latLngToGlobalPixel]
      rw [mul_div_cancel_right₀ _ (ne_of_gt h)]

/-- Witness for C10 at `lat = 0`, `lng = 0`, `zoom = 0`, `tileSize = 256`. -/
theorem tile_floor_of_globalPixel_witness :
    (0:ℝ) < 256 ∧
    ((latLngToTile 0 0 0).x = ⌊(latLngToGlobalPixel 0 0 0 256).globalX / 256⌋ ∧
     (latLngToTile 0 0 0).y = ⌊(latLngToGlobalPixel 0 0 0 256).globalY / 256⌋) :=
  ⟨by norm_num, tile_floor_of_globalPixel 0 0 0 256 (by norm_num)⟩

/-- Claim C1: the annotation projector subtracts the grid origin
`(minX*tileSize, minY*tileSize)` from the global pixel coordinates of the
SW/NE corners, takes the top edge from the northeast corner's Y and the
bottom edge from the southwest corner's Y (no horizontal inversion), and
returns `width = |x2-x1|`, `height = |y2-y1|`, `x_center = (x1+x2)/2`,
`y_center = (y1+y2)/2`, each normalized by the composite dimensions and
clamped to `[0,1]`, together with the unclamped (rounded) pixel rectangle. -/
theorem projector_formulas (b : GeoBounds) (g : TileGrid) (zoom : ℤ) (ts : ℝ) :
    (calculateYoloForComposite b g zoom ts).width
        = clamp01 (|((latLngToGlobalPixel b.north b.east zoom ts).globalX - g.minX * ts)
            - ((latLngToGlobalPixel b.south b.west zoom ts).globalX - g.minX * ts)|
            / (g.gridWidth * ts)) ∧
    (calculateYoloForComposite b g zoom ts).height
        = clamp01 (|((latLngToGlobalPixel b.south b.west zoom ts).globalY - g.minY * ts)
            - ((latLngToGlobalPixel b.north b.east zoom ts).globalY - g.minY * ts)|
            / (g.gridHeight * ts)) ∧
    (calculateYoloForComposite b g zoom ts).x_center
        = clamp01 ((((latLngToGlobalPixel b.south b.west zoom ts).globalX - g.minX * ts)
            + ((latLngToGlobalPixel b.north b.east zoom ts).globalX - g.minX * ts)) / 2
            / (g.gridWidth * ts)) ∧
    (calculateYoloForComposite b g zoom ts).y_center
        = clamp01 ((((latLngToGlobalPixel b.north b.east zoom ts).globalY - g.minY * ts)
            + ((latLngToGlobalPixel b.south b.west zoom ts).globalY - g.minY * ts)) / 2
            / (g.gridHeight * ts)) ∧
    (calculateYoloForComposite b g zoom ts).pixel
        = ⟨round ((latLngToGlobalPixel b.south b.west zoom ts).globalX - g.minX * ts),
           round ((latLngToGlobalPixel b.north b.east zoom ts).globalY - g.minY * ts),
           round ((latLngToGlobalPixel b.north b.east zoom ts).globalX - g.minX * ts),
           round ((latLngToGlobalPixel b.south b.west zoom ts).globalY - g.minY * ts)⟩ := by
  exact ⟨rfl, rfl, rfl, rfl, rfl⟩

/-- Claim C6: all four normalized fields returned by the annotation projector
lie in `[0,1]`, for every input whatsoever. -/
theorem projector_fields_normalized (b : GeoBounds) (g : TileGrid) (zoom : ℤ)
    (ts : ℝ) :
    0 ≤ (calculateYoloForComposite b g zoom ts).x_center ∧
    (calculateYoloForComposite b g zoom ts).x_center ≤ 1 ∧
    0 ≤ (calculateYoloForComposite b g zoom ts).y_center ∧
    (calculateYoloForComposite b g zoom ts).y_center ≤ 1 ∧
    0 ≤ (calculateYoloForComposite b g zoom ts).width ∧
    (calculateYoloForComposite b g zoom ts).width ≤ 1 ∧
    0 ≤ (calculateYoloForComposite b g zoom ts).height ∧
    (calculateYoloForComposite b g zoom ts).height ≤ 1 := by
  have key : ∀ v : ℝ, 0 ≤ max 0 (min 1 v) ∧ max 0 (min 1 v) ≤ 1 := fun v =>
    ⟨le_max_left 0 _, max_le (by norm_num) (min_le_left 1 v)⟩
  simp only [calculateYoloForComposite]
  exact ⟨(key _).1, (key _).2, (key _).1, (key _).2,
    (key _).1, (key _).2, (key _).1, (key _).2⟩

/-- Claim C4: the tile fetcher never fails.  Any error outcome is replaced by
the fixed 256x256 solid-color placeholder (256 is the configured tile size),
every outcome yields a raster (either the downloaded one or the placeholder),
and the compositor receives exactly one raster per requested tile. -/
theorem tileFetcher_never_fails :
    (∀ e : String, downloadTile (Except.error e) = placeholderTile) ∧
    placeholderTile.width = 256 ∧
    placeholderTile.height = 256 ∧
    (∀ px py : ℤ, placeholderTile.pixelAt px py = ⟨50, 50, 60⟩) ∧
    (∀ res : Except String Raster,
      downloadTile res = placeholderTile ∨
        ∃ r : Raster, res = Except.ok r ∧ downloadTile res = r) ∧
    ∀ (g : TileGrid) (fetchResult : TileCoord → Except String Raster),
      (createCompositeImage g 256 fetchResult).inputs.length = g.tiles.length := by
  refine ⟨fun e => rfl, rfl, rfl, fun px py => rfl, ?_, ?_⟩
  · intro res
    cases res with
    | ok r => exact Or.inr ⟨r, rfl, rfl⟩
    | error e => exact Or.inl rfl
  · intro g fetchResult
    simp [createCompositeImage]

/-- Claim C5: the composite image is exactly `gridWidth*tileSize` by
`gridHeight*tileSize`, and the raster of each tile in the grid's sequence is
placed at offset `((tileX-minX)*tileSize, (tileY-minY)*tileSize)`. -/
theorem compositor_dimensions_and_placement (g : TileGrid) (tileSize : ℤ)
    (fetchResult : TileCoord → Except String Raster) :
    (createCompositeImage g tileSize fetchResult).width = g.gridWidth * tileSize ∧
    (createCompositeImage g tileSize fetchResult).height = g.gridHeight * tileSize ∧
    (createCompositeImage g tileSize fetchResult).inputs
      = g.tiles.map fun t =>
          ⟨downloadTile (fetchResult t),
           (t.x - g.minX) * tileSize, (t.y - g.minY) * tileSize⟩ := by
  refine ⟨rfl, rfl, ?_⟩
  simp only [createCompositeImage, List.map_map]
  rfl

/-- Claim C8: when the composite/encode step fails, the box-creation request
still succeeds with status 201, the stored box has `image` and `imageSize`
set to `null`, and the YOLO coordinates are computed all the same. -/
theorem boxCreation_survives_composite_failure (labelId : ℤ) (labelName : String)
    (bounds : GeoBounds) (zoom : Option ℤ) (boxId : ℤ) (imageName : String)
    (fetchResult : TileCoord → Except String Raster) (e : String) :
    (handleCreateBox labelId labelName bounds zoom boxId imageName fetchResult
        (Except.error e)).1 = 201 ∧
    (handleCreateBox labelId labelName bounds zoom boxId imageName fetchResult
        (Except.error e)).2.image = none ∧
    (handleCreateBox labelId labelName bounds zoom boxId imageName fetchResult
        (Except.error e)).2.imageSize = none ∧
    (handleCreateBox labelId labelName bounds zoom boxId imageName fetchResult
        (Except.error e)).2.yolo
      = calculateYoloForComposite bounds
          (getTilesForBounds bounds (resolveZoom zoom)) (resolveZoom zoom) 256 :=
  ⟨rfl, rfl, rfl, rfl⟩

/-- Claim C9: an absent/null zoom and a caller-supplied zoom of `0` both
resolve to the default 14; the stored zoom, the resolved grid and the YOLO
projection for such requests are those of zoom level 14. -/
theorem zoom_zero_defaults_to_14 (labelId : ℤ) (labelName : String)
    (bounds : GeoBounds) (boxId : ℤ) (imageName : String)
    (fetchResult : TileCoord → Except String Raster)
    (encodeOutcome : Except String Unit) :
    resolveZoom none = 14 ∧
    resolveZoom (some 0) = 14 ∧
    handleCreateBox labelId labelName bounds none boxId imageName fetchResult
        encodeOutcome
      = handleCreateBox labelId labelName bounds (some 14) boxId imageName
          fetchResult encodeOutcome ∧
    handleCreateBox labelId labelName bounds (some 0) boxId imageName fetchResult
        encodeOutcome
      = handleCreateBox labelId labelName bounds (some 14) boxId imageName
          fetchResult encodeOutcome ∧
    (handleCreateBox labelId labelName bounds (some 0) boxId imageName fetchResult
        encodeOutcome).2.zoom = 14 ∧
    (handleCreateBox labelId labelName bounds (some 0) boxId imageName fetchResult
        encodeOutcome).2.tiles = (getTilesForBounds bounds 14).tiles ∧
    (handleCreateBox labelId labelName bounds (some 0) boxId imageName fetchResult
        encodeOutcome).2.yolo
      = calculateYoloForComposite bounds (getTilesForBounds bounds 14) 14 256 := by
  refine ⟨rfl, rfl, rfl, rfl, rfl, rfl, rfl⟩

lemma sin_interval {u a b : ℝ} (ha : a ≤ u) (hb : u ≤ b) (h0 : 0 ≤ a)
    (h1 : b ≤ 1) :
    a - b ^ 3 / 6 - b ^ 4 * (5 / 96) ≤ Real.sin u ∧
    Real.sin u ≤ b - a ^ 3 / 6 + b ^ 4 * (5 / 96) := by
  have hu0 : 0 ≤ u := le_trans h0 ha
  have habs : |u| ≤ 1 := abs_le.mpr ⟨by linarith, by linarith⟩
  have h := Real.sin_bound habs
  rw [abs_of_nonneg hu0] at h
  have h3 : u ^ 3 ≤ b ^ 3 := pow_le_pow_left₀ hu0 hb 3
  have h3' : a ^ 3 ≤ u ^ 3 := pow_le_pow_left₀ h0 ha 3
  have h4 : u ^ 4 ≤ b ^ 4 := pow_le_pow_left₀ hu0 hb 4
  have h4' : 0 ≤ u ^ 4 := by positivity
  have hpair := abs_le.mp h
  constructor
  · linarith [hpair.1]
  · linarith [hpair.2]

lemma g_interval {s a b : ℝ} (ha : a ≤ s) (hb : s ≤ b) (h0 : 0 ≤ a)
    (h2 : b ≤ 1 / 2) :
    3 * a - 4 * a ^ 3 ≤ 3 * s - 4 * s ^ 3 ∧
    3 * s - 4 * s ^ 3 ≤ 3 * b - 4 * b ^ 3 := by
  have hs0 : 0 ≤ s := le_trans h0 ha
  have hsb : s ≤ 1 / 2 := le_trans hb h2
  constructor
  · have key : 3 * s - 4 * s ^ 3 - (3 * a - 4 * a ^ 3)
        = (s - a) * (3 - 4 * (s ^ 2 + s * a + a ^ 2)) := by ring
    have hfac : 0 ≤ 3 - 4 * (s ^ 2 + s * a + a ^ 2) := by nlinarith
    nlinarith [mul_nonneg (sub_nonneg.mpr ha) hfac]
  · have key : 3 * b - 4 * b ^ 3 - (3 * s - 4 * s ^ 3)
        = (b - s) * (3 - 4 * (b ^ 2 + b * s + s ^ 2)) := by ring
    have hfac : 0 ≤ 3 - 4 * (b ^ 2 + b * s + s ^ 2) := by nlinarith
    nlinarith [mul_nonneg (sub_nonneg.mpr hb) hfac]

lemma exp_taylor_3 {r : ℝ} (h0 : 0 ≤ r) (h1 : r ≤ 1) :
    1 + r + r ^ 2 / 2 - r ^ 3 * (2 / 9) ≤ Real.exp r ∧
    Real.exp r ≤ 1 + r + r ^ 2 / 2 + r ^ 3 * (2 / 9) := by
  have habs : |r| ≤ 1 := abs_le.mpr ⟨by linarith, h1⟩
  have h := @Real.exp_bound r habs 3 (by norm_num)
  have hsum : (∑ m ∈ Finset.range 3, r ^ m / m.factorial) = 1 + r + r ^ 2 / 2 := by
    rw [Finset.sum_range_succ, Finset.sum_range_succ, Finset.sum_range_one]
    norm_num [Nat.factorial]
  rw [hsum, abs_of_nonneg h0] at h
  norm_num [Nat.factorial] at h
  have hpair := abs_le.mp h
  constructor
  · nlinarith [hpair.1]
  · nlinarith [hpair.2]

lemma exp_one_add_upper {r : ℝ} (h0 : 0 ≤ r) (h1 : r ≤ 1) :
    Real.exp (1 + r) ≤ 2.7182818286 * (1 + r + r ^ 2 / 2 + r ^ 3 * (2 / 9)) := by
  rw [Real.exp_add]
  exact mul_le_mul (le_of_lt Real.exp_one_lt_d9) (exp_taylor_3 h0 h1).2
    (le_of_lt (Real.exp_pos r)) (by norm_num)

lemma exp_one_add_lower {r : ℝ} (h0 : 0 ≤ r) (h1 : r ≤ 1) :
    2.7182818283 * (1 + r + r ^ 2 / 2 - r ^ 3 * (2 / 9)) ≤ Real.exp (1 + r) := by
  rw [Real.exp_add]
  refine mul_le_mul (le_of_lt Real.exp_one_gt_d9) (exp_taylor_3 h0 h1).1 ?_
    (le_of_lt (Real.exp_pos 1))
  nlinarith
set_option maxHeartbeats 2000000 in
lemma tan_deg50_bounds :
    (1.191753015340424:ℝ) ≤ Real.tan ((50:ℝ) * Real.pi / 180) ∧
    Real.tan ((50:ℝ) * Real.pi / 180) ≤ 1.191753962857398 := by
  have hpi1 : (3.141592:ℝ) < Real.pi := Real.pi_gt_d6
  have hpi2 : Real.pi < 3.141593 := Real.pi_lt_d6
  have hu1 : (392699/36450000:ℝ) ≤ (50:ℝ) * Real.pi / 180 / 81 := by linarith
  have hu2 : (50:ℝ) * Real.pi / 180 / 81 ≤ (3141593/291600000:ℝ) := by linarith
  have hbase := sin_interval hu1 hu2 (by norm_num) (by norm_num)
  have h0lo : (0.0107734259965535:ℝ) ≤ Real.sin ((50:ℝ) * Real.pi / 180 / 81) :=
    le_trans (by norm_num) hbase.1
  have h0hi : Real.sin ((50:ℝ) * Real.pi / 180 / 81) ≤ 0.0107734308294979 :=
    le_trans hbase.2 (by norm_num)
  have e1 : Real.sin ((50:ℝ) * Real.pi / 180 / 27)
      = 3 * Real.sin ((50:ℝ) * Real.pi / 180 / 81) - 4 * Real.sin ((50:ℝ) * Real.pi / 180 / 81) ^ 3 := by
    have h := Real.sin_three_mul ((50:ℝ) * Real.pi / 180 / 81)
    rw [show 3 * ((50:ℝ) * Real.pi / 180 / 81) = (50:ℝ) * Real.pi / 180 / 27 by ring] at h
    exact h
  have hstep1 := g_interval h0lo h0hi (by norm_num) (by norm_num)
  have h1lo : (0.032315276245316:ℝ) ≤ Real.sin ((50:ℝ) * Real.pi / 180 / 27) := by
    rw [e1]
    exact le_trans (by norm_num) hstep1.1
  have h1hi : Real.sin ((50:ℝ) * Real.pi / 180 / 27) ≤ 0.032315290737418 := by
    rw [e1]
    exact le_trans hstep1.2 (by norm_num)
  have e2 : Real.sin ((50:ℝ) * Real.pi / 180 / 9)
      = 3 * Real.sin ((50:ℝ) * Real.pi / 180 / 27) - 4 * Real.sin ((50:ℝ) * Real.pi / 180 / 27) ^ 3 := by
    have h := Real.sin_three_mul ((50:ℝ) * Real.pi / 180 / 27)
    rw [show 3 * ((50:ℝ) * Real.pi / 180 / 27) = (50:ℝ) * Real.pi / 180 / 9 by ring] at h
    exact h
  have hstep2 := g_interval h1lo h1hi (by norm_num) (by norm_num)
  have h2lo : (0.096810844326834:ℝ) ≤ Real.sin ((50:ℝ) * Real.pi / 180 / 9) := by
    rw [e2]
    exact le_trans (by norm_num) hstep2.1
  have h2hi : Real.sin ((50:ℝ) * Real.pi / 180 / 9) ≤ 0.096810887621535 := by
    rw [e2]
    exact le_trans hstep2.2 (by norm_num)
  have e3 : Real.sin ((50:ℝ) * Real.pi / 180 / 3)
      = 3 * Real.sin ((50:ℝ) * Real.pi / 180 / 9) - 4 * Real.sin ((50:ℝ) * Real.pi / 180 / 9) ^ 3 := by
    have h := Real.sin_three_mul ((50:ℝ) * Real.pi / 180 / 9)
    rw [show 3 * ((50:ℝ) * Real.pi / 180 / 9) = (50:ℝ) * Real.pi / 180 / 3 by ring] at h
    exact h
  have hstep3 := g_interval h2lo h2hi (by norm_num) (by norm_num)
  have h3lo : (0.286803156548552:ℝ) ≤ Real.sin ((50:ℝ) * Real.pi / 180 / 3) := by
    rw [e3]
    exact le_trans (by norm_num) hstep3.1
  have h3hi : Real.sin ((50:ℝ) * Real.pi / 180 / 3) ≤ 0.286803281563382 := by
    rw [e3]
    exact le_trans hstep3.2 (by norm_num)
  have e4 : Real.sin ((50:ℝ) * Real.pi / 180)
      = 3 * Real.sin ((50:ℝ) * Real.pi / 180 / 3) - 4 * Real.sin ((50:ℝ) * Real.pi / 180 / 3) ^ 3 := by
    have h := Real.sin_three_mul ((50:ℝ) * Real.pi / 180 / 3)
    rw [show 3 * ((50:ℝ) * Real.pi / 180 / 3) = (50:ℝ) * Real.pi / 180 by ring] at h
    exact h
  have hstep4 := g_interval h3lo h3hi (by norm_num) (by norm_num)
  have h4lo : (0.766044289809338:ℝ) ≤ Real.sin ((50:ℝ) * Real.pi / 180) := by
    rw [e4]
    exact le_trans (by norm_num) hstep4.1
  have h4hi : Real.sin ((50:ℝ) * Real.pi / 180) ≤ 0.766044541455061 := by
    rw [e4]
    exact le_trans hstep4.2 (by norm_num)
  have hx1 : (0.8726644444:ℝ) ≤ (50:ℝ) * Real.pi / 180 := by linarith
  have hx2 : (50:ℝ) * Real.pi / 180 ≤ (0.8726647223:ℝ) := by linarith
  have hcpos : 0 < Real.cos ((50:ℝ) * Real.pi / 180) := by
    apply Real.cos_pos_of_mem_Ioo
    constructor
    · linarith
    · linarith
  have hcsq : Real.cos ((50:ℝ) * Real.pi / 180) ^ 2 = 1 - Real.sin ((50:ℝ) * Real.pi / 180) ^ 2 := Real.cos_sq' ((50:ℝ) * Real.pi / 180)
  have hssq_hi : Real.sin ((50:ℝ) * Real.pi / 180) ^ 2 ≤ (0.766044541455061:ℝ) ^ 2 :=
    pow_le_pow_left₀ (le_trans (by norm_num) h4lo) h4hi 2
  have hssq_lo : (0.766044289809338:ℝ) ^ 2 ≤ Real.sin ((50:ℝ) * Real.pi / 180) ^ 2 :=
    pow_le_pow_left₀ (by norm_num) h4lo 2
  have hcsq_lo : (0.64278749249414:ℝ) ^ 2 ≤ Real.cos ((50:ℝ) * Real.pi / 180) ^ 2 := by
    rw [hcsq]
    linarith [hssq_hi]
  have hcsq_hi : Real.cos ((50:ℝ) * Real.pi / 180) ^ 2 ≤ (0.64278779239381:ℝ) ^ 2 := by
    rw [hcsq]
    linarith [hssq_lo]
  have hc_lo : (0.64278749249414:ℝ) ≤ Real.cos ((50:ℝ) * Real.pi / 180) :=
    le_of_pow_le_pow_left₀ (by norm_num) (le_of_lt hcpos) hcsq_lo
  have hc_hi : Real.cos ((50:ℝ) * Real.pi / 180) ≤ (0.64278779239381:ℝ) :=
    le_of_pow_le_pow_left₀ (by norm_num) (by norm_num) hcsq_hi
  have htan : Real.tan ((50:ℝ) * Real.pi / 180) = Real.sin ((50:ℝ) * Real.pi / 180) / Real.cos ((50:ℝ) * Real.pi / 180) :=
    Real.tan_eq_sin_div_cos ((50:ℝ) * Real.pi / 180)
  constructor
  · rw [htan, le_div_iff₀ hcpos]
    linarith [h4lo, hc_hi]
  · rw [htan, div_le_iff₀ hcpos]
    linarith [h4hi, hc_lo]

set_option maxHeartbeats 2000000 in
lemma tan_deg5001_bounds :
    (1.192175520746704:ℝ) ≤ Real.tan ((50.01:ℝ) * Real.pi / 180) ∧
    Real.tan ((50.01:ℝ) * Real.pi / 180) ≤ 1.192176469012916 := by
  have hpi1 : (3.141592:ℝ) < Real.pi := Real.pi_gt_d6
  have hpi2 : Real.pi < 3.141593 := Real.pi_lt_d6
  have hu1 : (654629233/60750000000:ℝ) ≤ (50.01:ℝ) * Real.pi / 180 / 81 := by linarith
  have hu2 : (50.01:ℝ) * Real.pi / 180 / 81 ≤ (5237035531/486000000000:ℝ) := by linarith
  have hbase := sin_interval hu1 hu2 (by norm_num) (by norm_num)
  have h0lo : (0.0107755805979393:ℝ) ≤ Real.sin ((50.01:ℝ) * Real.pi / 180 / 81) :=
    le_trans (by norm_num) hbase.1
  have h0hi : Real.sin ((50.01:ℝ) * Real.pi / 180 / 81) ≤ 0.0107755854326927 :=
    le_trans hbase.2 (by norm_num)
  have e1 : Real.sin ((50.01:ℝ) * Real.pi / 180 / 27)
      = 3 * Real.sin ((50.01:ℝ) * Real.pi / 180 / 81) - 4 * Real.sin ((50.01:ℝ) * Real.pi / 180 / 81) ^ 3 := by
    have h := Real.sin_three_mul ((50.01:ℝ) * Real.pi / 180 / 81)
    rw [show 3 * ((50.01:ℝ) * Real.pi / 180 / 81) = (50.01:ℝ) * Real.pi / 180 / 27 by ring] at h
    exact h
  have hstep1 := g_interval h0lo h0hi (by norm_num) (by norm_num)
  have h1lo : (0.032321737047943:ℝ) ≤ Real.sin ((50.01:ℝ) * Real.pi / 180 / 27) := by
    rw [e1]
    exact le_trans (by norm_num) hstep1.1
  have h1hi : Real.sin ((50.01:ℝ) * Real.pi / 180 / 27) ≤ 0.032321751545468 := by
    rw [e1]
    exact le_trans hstep1.2 (by norm_num)
  have e2 : Real.sin ((50.01:ℝ) * Real.pi / 180 / 9)
      = 3 * Real.sin ((50.01:ℝ) * Real.pi / 180 / 27) - 4 * Real.sin ((50.01:ℝ) * Real.pi / 180 / 27) ^ 3 := by
    have h := Real.sin_three_mul ((50.01:ℝ) * Real.pi / 180 / 27)
    rw [show 3 * ((50.01:ℝ) * Real.pi / 180 / 27) = (50.01:ℝ) * Real.pi / 180 / 9 by ring] at h
    exact h
  have hstep2 := g_interval h1lo h1hi (by norm_num) (by norm_num)
  have h2lo : (0.09683014575611:ℝ) ≤ Real.sin ((50.01:ℝ) * Real.pi / 180 / 9) := by
    rw [e2]
    exact le_trans (by norm_num) hstep2.1
  have h2hi : Real.sin ((50.01:ℝ) * Real.pi / 180 / 9) ≤ 0.09683018906694 := by
    rw [e2]
    exact le_trans hstep2.2 (by norm_num)
  have e3 : Real.sin ((50.01:ℝ) * Real.pi / 180 / 3)
      = 3 * Real.sin ((50.01:ℝ) * Real.pi / 180 / 9) - 4 * Real.sin ((50.01:ℝ) * Real.pi / 180 / 9) ^ 3 := by
    have h := Real.sin_three_mul ((50.01:ℝ) * Real.pi / 180 / 9)
    rw [show 3 * ((50.01:ℝ) * Real.pi / 180 / 9) = (50.01:ℝ) * Real.pi / 180 / 3 by ring] at h
    exact h
  have hstep3 := g_interval h2lo h2hi (by norm_num) (by norm_num)
  have h3lo : (0.28685888960896:ℝ) ≤ Real.sin ((50.01:ℝ) * Real.pi / 180 / 3) := by
    rw [e3]
    exact le_trans (by norm_num) hstep3.1
  have h3hi : Real.sin ((50.01:ℝ) * Real.pi / 180 / 3) ≤ 0.28685901466842 := by
    rw [e3]
    exact le_trans hstep3.2 (by norm_num)
  have e4 : Real.sin ((50.01:ℝ) * Real.pi / 180)
      = 3 * Real.sin ((50.01:ℝ) * Real.pi / 180 / 3) - 4 * Real.sin ((50.01:ℝ) * Real.pi / 180 / 3) ^ 3 := by
    have h := Real.sin_three_mul ((50.01:ℝ) * Real.pi / 180 / 3)
    rw [show 3 * ((50.01:ℝ) * Real.pi / 180 / 3) = (50.01:ℝ) * Real.pi / 180 by ring] at h
    exact h
  have hstep4 := g_interval h3lo h3hi (by norm_num) (by norm_num)
  have h4lo : (0.766156465722295:ℝ) ≤ Real.sin ((50.01:ℝ) * Real.pi / 180) := by
    rw [e4]
    exact le_trans (by norm_num) hstep4.1
  have h4hi : Real.sin ((50.01:ℝ) * Real.pi / 180) ≤ 0.766156717409874 := by
    rw [e4]
    exact le_trans hstep4.2 (by norm_num)
  have hx1 : (0.8728389773:ℝ) ≤ (50.01:ℝ) * Real.pi / 180 := by linarith
  have hx2 : (50.01:ℝ) * Real.pi / 180 ≤ (0.8728392552:ℝ) := by linarith
  have hcpos : 0 < Real.cos ((50.01:ℝ) * Real.pi / 180) := by
    apply Real.cos_pos_of_mem_Ioo
    constructor
    · linarith
    · linarith
  have hcsq : Real.cos ((50.01:ℝ) * Real.pi / 180) ^ 2 = 1 - Real.sin ((50.01:ℝ) * Real.pi / 180) ^ 2 := Real.cos_sq' ((50.01:ℝ) * Real.pi / 180)
  have hssq_hi : Real.sin ((50.01:ℝ) * Real.pi / 180) ^ 2 ≤ (0.766156717409874:ℝ) ^ 2 :=
    pow_le_pow_left₀ (le_trans (by norm_num) h4lo) h4hi 2
  have hssq_lo : (0.766156465722295:ℝ) ^ 2 ≤ Real.sin ((50.01:ℝ) * Real.pi / 180) ^ 2 :=
    pow_le_pow_left₀ (by norm_num) h4lo 2
  have hcsq_lo : (0.642653782660404:ℝ) ^ 2 ≤ Real.cos ((50.01:ℝ) * Real.pi / 180) ^ 2 := by
    rw [hcsq]
    linarith [hssq_hi]
  have hcsq_hi : Real.cos ((50.01:ℝ) * Real.pi / 180) ^ 2 ≤ (0.642654082716295:ℝ) ^ 2 := by
    rw [hcsq]
    linarith [hssq_lo]
  have hc_lo : (0.642653782660404:ℝ) ≤ Real.cos ((50.01:ℝ) * Real.pi / 180) :=
    le_of_pow_le_pow_left₀ (by norm_num) (le_of_lt hcpos) hcsq_lo
  have hc_hi : Real.cos ((50.01:ℝ) * Real.pi / 180) ≤ (0.642654082716295:ℝ) :=
    le_of_pow_le_pow_left₀ (by norm_num) (by norm_num) hcsq_hi
  have htan : Real.tan ((50.01:ℝ) * Real.pi / 180) = Real.sin ((50.01:ℝ) * Real.pi / 180) / Real.cos ((50.01:ℝ) * Real.pi / 180) :=
    Real.tan_eq_sin_div_cos ((50.01:ℝ) * Real.pi / 180)
  constructor
  · rw [htan, le_div_iff₀ hcpos]
    linarith [h4lo, hc_hi]
  · rw [htan, div_le_iff₀ hcpos]
    linarith [h4hi, hc_lo]
set_option maxHeartbeats 1000000 in
lemma arsinh_tan_deg50_bounds :
    2635 * Real.pi / 8192 < Real.arsinh (Real.tan ((50:ℝ) * Real.pi / 180)) ∧
    Real.arsinh (Real.tan ((50:ℝ) * Real.pi / 180)) ≤ 2636 * Real.pi / 8192 := by
  have ht := tan_deg50_bounds
  have hT0 : (0:ℝ) ≤ Real.tan ((50:ℝ) * Real.pi / 180) := le_trans (by norm_num) ht.1
  have hsq_lo : (1.555723384658401:ℝ) ≤ Real.sqrt (1 + Real.tan ((50:ℝ) * Real.pi / 180) ^ 2) := by
    rw [show (1.555723384658401:ℝ) = Real.sqrt (1.555723384658401 ^ 2) from
      (Real.sqrt_sq (by norm_num)).symm]
    apply Real.sqrt_le_sqrt
    have h2 : (1.191753015340424:ℝ) ^ 2 ≤ Real.tan ((50:ℝ) * Real.pi / 180) ^ 2 :=
      pow_le_pow_left₀ (by norm_num) ht.1 2
    nlinarith [h2]
  have hsq_hi : Real.sqrt (1 + Real.tan ((50:ℝ) * Real.pi / 180) ^ 2) ≤ 1.555724110498489 := by
    rw [show (1.555724110498489:ℝ) = Real.sqrt (1.555724110498489 ^ 2) from
      (Real.sqrt_sq (by norm_num)).symm]
    apply Real.sqrt_le_sqrt
    have h2 : Real.tan ((50:ℝ) * Real.pi / 180) ^ 2 ≤ (1.191753962857398:ℝ) ^ 2 :=
      pow_le_pow_left₀ hT0 ht.2 2
    nlinarith [h2]
  have hexpA : Real.exp (Real.arsinh (Real.tan ((50:ℝ) * Real.pi / 180))) = Real.tan ((50:ℝ) * Real.pi / 180) + Real.sqrt (1 + Real.tan ((50:ℝ) * Real.pi / 180) ^ 2) :=
    Real.exp_arsinh _
  constructor
  · have hup := exp_one_add_upper (show (0:ℝ) ≤ 17219511/1638400000 by norm_num)
      (show (17219511/1638400000:ℝ) ≤ 1 by norm_num)
    rw [show (1:ℝ) + 17219511/1638400000 = 2635 * 3.141593 / 8192 by norm_num] at hup
    have hmono : Real.exp (2635 * Real.pi / 8192) ≤ Real.exp (2635 * (3.141593:ℝ) / 8192) := by
      apply Real.exp_le_exp.mpr
      have hd6 := Real.pi_lt_d6
      linarith
    have hnum : (2.7182818286:ℝ) * (1 + 17219511/1638400000 + (17219511/1638400000:ℝ) ^ 2 / 2 + (17219511/1638400000:ℝ) ^ 3 * (2 / 9))
        < 1.191753015340424 + 1.555723384658401 := by norm_num
    have hge : (1.191753015340424:ℝ) + 1.555723384658401 ≤ Real.exp (Real.arsinh (Real.tan ((50:ℝ) * Real.pi / 180))) := by
      rw [hexpA]
      linarith [ht.1, hsq_lo]
    have hlt : Real.exp (2635 * Real.pi / 8192) < Real.exp (Real.arsinh (Real.tan ((50:ℝ) * Real.pi / 180))) := by
      linarith
    exact Real.exp_lt_exp.mp hlt
  · have hlo := exp_one_add_lower (show (0:ℝ) ≤ 2788641/256000000 by norm_num)
      (show (2788641/256000000:ℝ) ≤ 1 by norm_num)
    rw [show (1:ℝ) + 2788641/256000000 = 2636 * 3.141592 / 8192 by norm_num] at hlo
    have hmono : Real.exp (2636 * (3.141592:ℝ) / 8192) ≤ Real.exp (2636 * Real.pi / 8192) := by
      apply Real.exp_le_exp.mpr
      have hd6 := Real.pi_gt_d6
      linarith
    have hnum : (1.191753962857398:ℝ) + 1.555724110498489
        ≤ 2.7182818283 * (1 + 2788641/256000000 + (2788641/256000000:ℝ) ^ 2 / 2 - (2788641/256000000:ℝ) ^ 3 * (2 / 9)) := by norm_num
    have hle : Real.exp (Real.arsinh (Real.tan ((50:ℝ) * Real.pi / 180))) ≤ (1.191753962857398:ℝ) + 1.555724110498489 := by
      rw [hexpA]
      linarith [ht.2, hsq_hi]
    have hfin : Real.exp (Real.arsinh (Real.tan ((50:ℝ) * Real.pi / 180))) ≤ Real.exp (2636 * Real.pi / 8192) := by
      linarith
    exact Real.exp_le_exp.mp hfin

set_option maxHeartbeats 1000000 in
lemma arsinh_tan_deg5001_bounds :
    2636 * Real.pi / 8192 < Real.arsinh (Real.tan ((50.01:ℝ) * Real.pi / 180)) ∧
    Real.arsinh (Real.tan ((50.01:ℝ) * Real.pi / 180)) ≤ 2637 * Real.pi / 8192 := by
  have ht := tan_deg5001_bounds
  have hT0 : (0:ℝ) ≤ Real.tan ((50.01:ℝ) * Real.pi / 180) := le_trans (by norm_num) ht.1
  have hsq_lo : (1.556047066212225:ℝ) ≤ Real.sqrt (1 + Real.tan ((50.01:ℝ) * Real.pi / 180) ^ 2) := by
    rw [show (1.556047066212225:ℝ) = Real.sqrt (1.556047066212225 ^ 2) from
      (Real.sqrt_sq (by norm_num)).symm]
    apply Real.sqrt_le_sqrt
    have h2 : (1.192175520746704:ℝ) ^ 2 ≤ Real.tan ((50.01:ℝ) * Real.pi / 180) ^ 2 :=
      pow_le_pow_left₀ (by norm_num) ht.1 2
    nlinarith [h2]
  have hsq_hi : Real.sqrt (1 + Real.tan ((50.01:ℝ) * Real.pi / 180) ^ 2) ≤ 1.556047792732635 := by
    rw [show (1.556047792732635:ℝ) = Real.sqrt (1.556047792732635 ^ 2) from
      (Real.sqrt_sq (by norm_num)).symm]
    apply Real.sqrt_le_sqrt
    have h2 : Real.tan ((50.01:ℝ) * Real.pi / 180) ^ 2 ≤ (1.192176469012916:ℝ) ^ 2 :=
      pow_le_pow_left₀ hT0 ht.2 2
    nlinarith [h2]
  have hexpA : Real.exp (Real.arsinh (Real.tan ((50.01:ℝ) * Real.pi / 180))) = Real.tan ((50.01:ℝ) * Real.pi / 180) + Real.sqrt (1 + Real.tan ((50.01:ℝ) * Real.pi / 180) ^ 2) :=
    Real.exp_arsinh _
  constructor
  · have hup := exp_one_add_upper (show (0:ℝ) ≤ 22309787/2048000000 by norm_num)
      (show (22309787/2048000000:ℝ) ≤ 1 by norm_num)
    rw [show (1:ℝ) + 22309787/2048000000 = 2636 * 3.141593 / 8192 by norm_num] at hup
    have hmono : Real.exp (2636 * Real.pi / 8192) ≤ Real.exp (2636 * (3.141593:ℝ) / 8192) := by
      apply Real.exp_le_exp.mpr
      have hd6 := Real.pi_lt_d6
      linarith
    have hnum : (2.7182818286:ℝ) * (1 + 22309787/2048000000 + (22309787/2048000000:ℝ) ^ 2 / 2 + (22309787/2048000000:ℝ) ^ 3 * (2 / 9))
        < 1.192175520746704 + 1.556047066212225 := by norm_num
    have hge : (1.192175520746704:ℝ) + 1.556047066212225 ≤ Real.exp (Real.arsinh (Real.tan ((50.01:ℝ) * Real.pi / 180))) := by
      rw [hexpA]
      linarith [ht.1, hsq_lo]
    have hlt : Real.exp (2636 * Real.pi / 8192) < Real.exp (Real.arsinh (Real.tan ((50.01:ℝ) * Real.pi / 180))) := by
      linarith
    exact Real.exp_lt_exp.mp hlt
  · have hlo := exp_one_add_lower (show (0:ℝ) ≤ 11547263/1024000000 by norm_num)
      (show (11547263/1024000000:ℝ) ≤ 1 by norm_num)
    rw [show (1:ℝ) + 11547263/1024000000 = 2637 * 3.141592 / 8192 by norm_num] at hlo
    have hmono : Real.exp (2637 * (3.141592:ℝ) / 8192) ≤ Real.exp (2637 * Real.pi / 8192) := by
      apply Real.exp_le_exp.mpr
      have hd6 := Real.pi_gt_d6
      linarith
    have hnum : (1.192176469012916:ℝ) + 1.556047792732635
        ≤ 2.7182818283 * (1 + 11547263/1024000000 + (11547263/1024000000:ℝ) ^ 2 / 2 - (11547263/1024000000:ℝ) ^ 3 * (2 / 9)) := by norm_num
    have hle : Real.exp (Real.arsinh (Real.tan ((50.01:ℝ) * Real.pi / 180))) ≤ (1.192176469012916:ℝ) + 1.556047792732635 := by
      rw [hexpA]
      linarith [ht.2, hsq_hi]
    have hfin : Real.exp (Real.arsinh (Real.tan ((50.01:ℝ) * Real.pi / 180))) ≤ Real.exp (2637 * Real.pi / 8192) := by
      linarith
    exact Real.exp_le_exp.mp hfin

lemma floor_mercatorY {A : ℝ} {k : ℤ} (h1 : (k:ℝ) * Real.pi / 8192 < A)
    (h2 : A ≤ ((k:ℝ) + 1) * Real.pi / 8192) :
    ⌊(1 - A / Real.pi) / 2 * (16384:ℝ)⌋ = 8191 - k := by
  have hpi : (0:ℝ) < Real.pi := Real.pi_pos
  have hd1 : (k:ℝ) / 8192 < A / Real.pi := by
    rw [div_lt_div_iff₀ (by norm_num) hpi]
    linarith
  have hd2 : A / Real.pi ≤ ((k:ℝ) + 1) / 8192 := by
    rw [div_le_div_iff₀ hpi (by norm_num)]
    linarith
  rw [Int.floor_eq_iff]
  constructor
  · push_cast
    linarith
  · push_cast
    linarith

lemma latLngToTile_sw_example : latLngToTile 50 10 14 = ⟨8647, 5556, 14⟩ := by
  have hA := arsinh_tan_deg50_bounds
  have hpow : ((2:ℝ) ^ (14:ℤ)) = 16384 := by norm_num
  have hx : ⌊((10:ℝ) + 180) / 360 * ((2:ℝ) ^ (14:ℤ))⌋ = (8647:ℤ) := by
    rw [hpow, Int.floor_eq_iff]
    constructor
    · norm_num
    · norm_num
  have h1 : ((2635:ℤ):ℝ) * Real.pi / 8192
      < Real.arsinh (Real.tan ((50:ℝ) * Real.pi / 180)) := by
    exact_mod_cast hA.1
  have h2 : Real.arsinh (Real.tan ((50:ℝ) * Real.pi / 180))
      ≤ (((2635:ℤ):ℝ) + 1) * Real.pi / 8192 := by
    push_cast
    rw [show (2635:ℝ) + 1 = 2636 by norm_num]
    exact hA.2
  have hy : ⌊(1 - Real.arsinh (Real.tan ((50:ℝ) * Real.pi / 180)) / Real.pi) / 2
      * ((2:ℝ) ^ (14:ℤ))⌋ = (5556:ℤ) := by
    rw [hpow, floor_mercatorY h1 h2]
    decide
  simp only [latLngToTile]
  rw [hx, hy]

lemma latLngToTile_ne_example : latLngToTile 50.01 10.01 14 = ⟨8647, 5555, 14⟩ := by
  have hA := arsinh_tan_deg5001_bounds
  have hpow : ((2:ℝ) ^ (14:ℤ)) = 16384 := by norm_num
  have hx : ⌊((10.01:ℝ) + 180) / 360 * ((2:ℝ) ^ (14:ℤ))⌋ = (8647:ℤ) := by
    rw [hpow, Int.floor_eq_iff]
    constructor
    · norm_num
    · norm_num
  have h1 : ((2636:ℤ):ℝ) * Real.pi / 8192
      < Real.arsinh (Real.tan ((50.01:ℝ) * Real.pi / 180)) := by
    exact_mod_cast hA.1
  have h2 : Real.arsinh (Real.tan ((50.01:ℝ) * Real.pi / 180))
      ≤ (((2636:ℤ):ℝ) + 1) * Real.pi / 8192 := by
    push_cast
    rw [show (2636:ℝ) + 1 = 2637 by norm_num]
    exact hA.2
  have hy : ⌊(1 - Real.arsinh (Real.tan ((50.01:ℝ) * Real.pi / 180)) / Real.pi) / 2
      * ((2:ℝ) ^ (14:ℤ))⌋ = (5555:ℤ) := by
    rw [hpow, floor_mercatorY h1 h2]
    decide
  simp only [latLngToTile]
  rw [hx, hy]

lemma getTilesForBounds_example :
    getTilesForBounds ⟨50, 10, 50.01, 10.01⟩ 14
      = ⟨[⟨8647, 5555, 14⟩, ⟨8647, 5556, 14⟩], 1, 2, 8647, 5555, 8647, 5556⟩ := by
  rw [getTilesForBounds_mk]
  dsimp only
  rw [latLngToTile_sw_example, latLngToTile_ne_example]
  decide

/-- Counterexample to claim C7 as stated: for the worked-example input the SW
and NE corners resolve to vertically adjacent tiles (8647,5556) and
(8647,5555), so the "same tile / 1x1" branch fails, and the resolved grid is
1 wide by 2 tall, so neither "2x1" nor "2x2" holds either. -/
theorem workedExample_claim_counterexample :
    ¬ (let sw := latLngToTile 50 10 14
       let ne := latLngToTile 50.01 10.01 14
       let g := getTilesForBounds ⟨50, 10, 50.01, 10.01⟩ 14
       let px := (calculateYoloForComposite ⟨50, 10, 50.01, 10.01⟩ g 14 256).pixel
       (sw = ne ∧ g.gridWidth = 1 ∧ g.gridHeight = 1 ∧
        0 ≤ px.x1 ∧ px.x1 < 256 ∧ 0 ≤ px.y1 ∧ px.y1 < 256 ∧
        0 ≤ px.x2 ∧ px.x2 < 256 ∧ 0 ≤ px.y2 ∧ px.y2 < 256) ∨
       ((sw ≠ ne ∧ |sw.x - ne.x| ≤ 1 ∧ |sw.y - ne.y| ≤ 1) ∧
        ((g.gridWidth = 2 ∧ g.gridHeight = 1) ∨
         (g.gridWidth = 2 ∧ g.gridHeight = 2)))) := by
  intro h
  simp only [latLngToTile_sw_example, latLngToTile_ne_example,
    getTilesForBounds_example] at h
  rcases h with ⟨heq, _⟩ | ⟨_, hdims⟩
  · exact absurd heq (by decide)
  · rcases hdims with ⟨hw, _⟩ | ⟨hw, _⟩ <;> exact absurd hw (by decide)

/-- Claim C7 as amended: for the worked-example input the corners either
resolve to the same tile (grid 1x1, pixel rectangle strictly inside the
single tile) or to adjacent tiles with the grid being 2x1, 1x2 or 2x2; the
second branch is what actually happens, with a 1-wide 2-tall grid. -/
theorem workedExample_amended :
    (let sw := latLngToTile 50 10 14
     let ne := latLngToTile 50.01 10.01 14
     let g := getTilesForBounds ⟨50, 10, 50.01, 10.01⟩ 14
     let px := (calculateYoloForComposite ⟨50, 10, 50.01, 10.01⟩ g 14 256).pixel
     (sw = ne ∧ g.gridWidth = 1 ∧ g.gridHeight = 1 ∧
      0 ≤ px.x1 ∧ px.x1 < 256 ∧ 0 ≤ px.y1 ∧ px.y1 < 256 ∧
      0 ≤ px.x2 ∧ px.x2 < 256 ∧ 0 ≤ px.y2 ∧ px.y2 < 256) ∨
     ((sw ≠ ne ∧ |sw.x - ne.x| ≤ 1 ∧ |sw.y - ne.y| ≤ 1) ∧
      ((g.gridWidth = 2 ∧ g.gridHeight = 1) ∨
       (g.gridWidth = 1 ∧ g.gridHeight = 2) ∨
       (g.gridWidth = 2 ∧ g.gridHeight = 2)))) := by
  simp only [latLngToTile_sw_example, latLngToTile_ne_example,
    getTilesForBounds_example]
  refine Or.inr ⟨⟨by decide, by decide, by decide⟩, Or.inr (Or.inl ⟨by trivial, by trivial⟩)⟩
